import Mathlib

/-!
Verification of the CareCompass (MedFin) frontend core against its design
specification: the resilient HTTP client (src/frontend/lib/robust-api.ts)
and the two local domain stores (src/frontend/contexts/SavingsContext.tsx
and the FamilyContext module).

Embedding conventions:
- JavaScript numbers that hold money amounts, percentages and scores are
  modelled as rationals; attempt counters, HTTP statuses, retry counts and
  millisecond timestamps are naturals.
- The browser network (fetch, AbortController, setTimeout) is abstracted by
  an oracle assigning to each attempt index the outcome the catch clause of
  requestWithTimeout observes; the pure normalization of that outcome into
  an APIError is translated from the source (robust-api.ts lines 54-96).
- React useState state is passed explicitly: a mutator is a function from
  the current collection (and the current clock reading, for id and date
  stamping) to the next collection.
- JSON.parse / JSON.stringify are platform externals forming an inverse
  pair between JSON texts and JSON documents; a serialized payload is
  modelled as what the import code observes of the parsed text: a parse
  failure, the parsed value null (whose property access throws inside the
  same try block), or a parsed document restricted to the fields the store
  code reads and writes (the collection field, exportDate, version). List
  elements pass through the codec unchanged, as they are plain data
  records.
- Array.prototype.sort is stable (ES2019) and sorts by the comparator; for
  a comparator inducing a total preorder every stable sort computes the
  same list, so it is modelled by List.insertionSort, which is stable and
  kernel-reducible.
-/

/-! ## Resilient HTTP client (src/frontend/lib/robust-api.ts) -/

/-- APIError from robust-api.ts lines 5-15: a typed error carrying the HTTP
status (0 for transport-level network failures), a message, and optional
code and details taken from the response body. -/
structure APIError where
  status : Nat
  message : String
  code : Option String := none
  details : Option String := none
deriving DecidableEq

/-- RequestOptions from robust-api.ts lines 17-21 (the RequestInit fields
the client logic reads, plus the method set by the convenience verbs); a
field holds none when the caller leaves it undefined. -/
structure RequestOptions where
  timeout : Option Nat := none
  retries : Option Nat := none
  retryDelay : Option Nat := none
  method : Option String := none
deriving DecidableEq

/-- How a single fetch attempt settles, as observed by requestWithTimeout
(robust-api.ts lines 44-96): a parsed successful body, a non-ok response
(which becomes an APIError with the response status and body-derived
message/code/details), an AbortError fired by the timeout, a TypeError
(network failure), or any other exception. -/
inductive FetchOutcome (α : Type) where
  | ok (v : α)
  | httpError (status : Nat) (message : String) (code : Option String) (details : Option String)
  | aborted
  | networkError
  | other
deriving DecidableEq

/-- The error normalization performed by requestWithTimeout
(robust-api.ts lines 56-95): non-ok responses become APIError(status, ...),
AbortError becomes APIError(408, "Request timeout"), TypeError becomes
APIError(0, network message), anything else becomes APIError(500, ...). -/
def normalizeOutcome : FetchOutcome α → Except APIError α
  | .ok v => .ok v
  | .httpError s m c d => .error { status := s, message := m, code := c, details := d }
  | .aborted => .error { status := 408, message := "Request timeout" }
  | .networkError => .error { status := 0, message := "Network error - please check your connection" }
  | .other => .error { status := 500, message := "Unexpected error occurred" }

/-- The non-retry condition of request (robust-api.ts lines 115-126), in
source order: status below 500, or one of 401, 403, 404, 422, 429. -/
def nonRetryable (e : APIError) : Bool :=
  decide (e.status < 500) || e.status == 401 || e.status == 403 ||
    e.status == 404 || e.status == 422 || e.status == 429

/-- Effective timeout (robust-api.ts line 40): options.timeout coalesced
with the 30000 ms default using the JavaScript falsy operator, which also
replaces an explicit 0. -/
def effectiveTimeout (opts : RequestOptions) : Nat :=
  match opts.timeout with
  | some t => if t = 0 then 30000 else t
  | none => 30000

/-- Effective retry count (robust-api.ts line 103): options.retries with
nullish coalescing against defaultRetries = 3, so an explicit 0 is kept. -/
def effectiveRetries (opts : RequestOptions) : Nat :=
  opts.retries.getD 3

/-- Effective backoff base (robust-api.ts line 104): options.retryDelay
with nullish coalescing against 1000 ms, so an explicit 0 is kept. -/
def effectiveRetryDelay (opts : RequestOptions) : Nat :=
  opts.retryDelay.getD 1000

/-- The observable trace of one request call: the settled result, the total
number of attempts made, and the list of backoff waits (in ms) performed
between consecutive attempts. -/
structure ReqTrace (α : Type) where
  result : Except APIError α
  attempts : Nat
  delays : List Nat

/-- The retry loop of request (robust-api.ts lines 108-137). The loop
variable attempt runs upward while remaining counts the attempts still
allowed after the current one, so remaining = retries - attempt and the
source guard (attempt === retries) is remaining = 0. Each iteration makes
one attempt through the oracle; a success returns it, a non-retryable error
is thrown at once, the last allowed attempt throws the error, and otherwise
the loop sleeps retryDelay * 2 ^ attempt and continues. -/
def requestLoop (o : Nat → FetchOutcome α) (retryDelay : Nat) :
    (remaining attempt : Nat) → ReqTrace α
  | remaining, attempt =>
    match normalizeOutcome (o attempt) with
    | .ok v => { result := .ok v, attempts := 1, delays := [] }
    | .error e =>
      if nonRetryable e then
        { result := .error e, attempts := 1, delays := [] }
      else
        match remaining with
        | 0 => { result := .error e, attempts := 1, delays := [] }
        | r + 1 =>
          let rest := requestLoop o retryDelay r (attempt + 1)
          { result := rest.result, attempts := rest.attempts + 1,
            delays := retryDelay * 2 ^ attempt :: rest.delays }

/-- request(url, options) from robust-api.ts lines 99-141: resolve the
retry configuration and run the retry loop from attempt 0. The url is
forwarded to fetch inside requestWithTimeout, whose network behaviour the
oracle o abstracts. -/
def request (url : String) (opts : RequestOptions) (o : Nat → FetchOutcome α) : ReqTrace α :=
  let _ := url
  requestLoop o (effectiveRetryDelay opts) (effectiveRetries opts) 0

/-- The options healthCheck passes to this.get (robust-api.ts line 195):
timeout 5000 ms, retries 1, and the GET method added by get. -/
def healthCheckOptions : RequestOptions :=
  { timeout := some 5000, retries := some 1, method := some "GET" }

/-- healthCheck (robust-api.ts lines 193-200): one GET of /health with
healthCheckOptions; resolves true when the request succeeds and false on
any failure, the catch swallowing every error. -/
def healthCheck (o : Nat → FetchOutcome α) : Bool :=
  match (request "/health" healthCheckOptions o).result with
  | .ok _ => true
  | .error _ => false

/-! ## Shared serialization shape for the two stores -/

/-- The collection field of a parsed import payload: either an array of
elements (Array.isArray true) or some other present value (a non-array, on
which the import guard fails). -/
inductive CollectionField (α : Type) where
  | arr (elems : List α)
  | notArray
deriving DecidableEq

/-- A parsed import/export document, restricted to the keys the stores read
and write: the collection field (savingsEvents for the Savings store,
familyMembers for the Family store; none when the key is absent), plus
exportDate and version, which import never reads. -/
structure ExportDoc (α : Type) where
  collection : Option (CollectionField α) := none
  exportDate : Option String := none
  version : Option String := none
deriving DecidableEq

/-- What JSON.parse makes of an import payload text, as the import code
observes it. A text that is not JSON throws inside JSON.parse
(unparseable). The text of the JSON value null parses, but the subsequent
property access on the parsed null throws a TypeError, still inside the
try block (nullDoc). Every other JSON value supports property access and
is read as a document: an object carries its collection field, and a
primitive (number, string, boolean) yields undefined for it, that is a
document whose collection is none. JSON.parse never yields undefined. -/
inductive ImportPayload (α : Type) where
  | unparseable
  | nullDoc
  | doc (d : ExportDoc α)
deriving DecidableEq

/-! ## Savings store (src/frontend/contexts/SavingsContext.tsx) -/

/-- SavingsEvent (components/SavingsTracker interface, used by
SavingsContext.tsx): the date field, an ISO-8601 string produced by
toISOString, is modelled by the epoch-millisecond timestamp it denotes,
which toISOString and the Date constructor translate to and from preserving
order and equality. -/
structure SavingsEvent where
  id : String
  date : Nat
  category : String
  description : String
  amountSaved : ℚ
  memberId : Option String := none
deriving DecidableEq

/-- The argument of addSavingsEvent: a SavingsEvent without its id and date
fields (Omit of id and date). -/
structure SavingsEventData where
  category : String
  description : String
  amountSaved : ℚ
  memberId : Option String := none
deriving DecidableEq

/-- The event built by addSavingsEvent (SavingsContext.tsx lines 71-75):
the input data spread together with id = Date.now().toString() and
date = new Date().toISOString(), both taken at the current clock reading
now (epoch milliseconds). -/
def newSavingsEvent (eventData : SavingsEventData) (now : Nat) : SavingsEvent :=
  { id := toString now, date := now,
    category := eventData.category, description := eventData.description,
    amountSaved := eventData.amountSaved, memberId := eventData.memberId }

/-- addSavingsEvent (SavingsContext.tsx lines 70-77): append the newly
stamped event to the collection. -/
def addSavingsEvent (eventData : SavingsEventData) (now : Nat)
    (st : List SavingsEvent) : List SavingsEvent :=
  st ++ [newSavingsEvent eventData now]

/-- removeSavingsEvent (SavingsContext.tsx lines 79-81). -/
def removeSavingsEvent (id : String) (st : List SavingsEvent) : List SavingsEvent :=
  st.filter (fun event => event.id != id)

/-- exportSavingsData (SavingsContext.tsx lines 91-98): the document
serialized is the full collection plus exportDate (the current time as an
ISO string) and version "1.0". -/
def exportSavingsData (st : List SavingsEvent) (nowIso : String) : ExportDoc SavingsEvent :=
  { collection := some (.arr st), exportDate := some nowIso, version := some "1.0" }

/-- importSavingsData (SavingsContext.tsx lines 100-109). The catch wraps
the whole try block, so two cases rethrow the format error: a payload that
fails JSON.parse, and the JSON text of null, whose property access throws
a TypeError inside the try. Any other parsed payload replaces the
collection only when its savingsEvents field is present, truthy and an
array, and otherwise the call returns with the collection untouched and no
error. -/
def importSavingsData (payload : ImportPayload SavingsEvent)
    (st : List SavingsEvent) : Except String (List SavingsEvent) :=
  match payload with
  | .unparseable => .error "Invalid savings data format"
  | .nullDoc => .error "Invalid savings data format"
  | .doc d =>
    match d.collection with
    | some (.arr elems) => .ok elems
    | _ => .ok st

/-- clearAllSavings (SavingsContext.tsx lines 111-113). -/
def clearAllSavings (st : List SavingsEvent) : List SavingsEvent :=
  let _ := st
  []

/-- totalSavings (SavingsContext.tsx line 60): reduce summing amountSaved
from 0. -/
def totalSavings (evs : List SavingsEvent) : ℚ :=
  evs.foldl (fun sum event => sum + event.amountSaved) 0

/-- savingsByCategory (SavingsContext.tsx lines 62-65): the reduce building
a Record keyed by category. A JavaScript Record is observed through key
lookup, with an absent key read back as 0 by the falsy coalescing in the
accumulation step, so the Record is modelled extensionally as its lookup
function. -/
def savingsByCategory (evs : List SavingsEvent) : String → ℚ :=
  evs.foldl
    (fun acc event => fun c =>
      if c = event.category then acc c + event.amountSaved else acc c)
    (fun _ => 0)

/-- Math.round, used on nonnegative quotients: round half up. -/
def jsMathRound (q : ℚ) : Int :=
  Int.floor (q + 1 / 2)

/-- estimatedTimeSaved (SavingsContext.tsx line 68):
Math.round(totalSavings / 100). -/
def estimatedTimeSaved (evs : List SavingsEvent) : Int :=
  jsMathRound (totalSavings evs / 100)

/-- SavingsStats (components/SavingsTracker interface). -/
structure SavingsStats where
  totalSaved : ℚ
  savingsByCategory : String → ℚ
  savingsHistory : List SavingsEvent
  estimatedTimeSaved : Int

/-- The comparator passed to sort by getSavingsStats (SavingsContext.tsx
line 118): (a, b) => getTime(b.date) - getTime(a.date), so a may precede b
exactly when the comparator is nonpositive, that is when the date of b is
at most the date of a (newest first). -/
def dateDescLE (a b : SavingsEvent) : Prop :=
  b.date ≤ a.date

instance : DecidableRel dateDescLE :=
  fun a b => inferInstanceAs (Decidable (b.date ≤ a.date))

instance : IsTotal SavingsEvent dateDescLE :=
  ⟨fun a b => Nat.le_total b.date a.date⟩

instance : IsTrans SavingsEvent dateDescLE :=
  ⟨fun _ _ _ hab hbc => Nat.le_trans hbc hab⟩

/-- getSavingsStats (SavingsContext.tsx lines 115-120). Array.sort mutates
the array in place and returns it, so the call yields both the stats object
(whose savingsHistory is the sorted array, and whose other fields are the
derived values computed by the provider from the collection) and the new
store state, which is the same sorted array. -/
def getSavingsStats (evs : List SavingsEvent) : SavingsStats × List SavingsEvent :=
  let sorted := List.insertionSort dateDescLE evs
  ({ totalSaved := totalSavings evs,
     savingsByCategory := savingsByCategory evs,
     savingsHistory := sorted,
     estimatedTimeSaved := estimatedTimeSaved evs }, sorted)

/-! ## Family store (FamilyContext module) -/

/-- The fields of the opaque PolicyData record that the Family store reads:
annual_deductible_individual in getPendingActions and
policy_strength_score in getFamilySavings; none models undefined. -/
structure PolicyData where
  annual_deductible_individual : Option ℚ := none
  policy_strength_score : Option ℚ := none
deriving DecidableEq

/-- PolicyAssignment (FamilyContext). -/
structure PolicyAssignment where
  policyId : String
  policyData : PolicyData
  memberType : String
  deductibleMet : ℚ
  outOfPocketMet : ℚ
deriving DecidableEq

/-- FamilyMember (FamilyContext). -/
structure FamilyMember where
  id : String
  name : String
  relationship : String
  dateOfBirth : Option String := none
  policies : List PolicyAssignment
deriving DecidableEq

/-- The priority tags of a FamilyAction. -/
inductive Priority where
  | high
  | medium
  | low
deriving DecidableEq

/-- The action types of a FamilyAction. -/
inductive ActionType where
  | billReview
  | appeal
  | priorAuth
  | renewal
deriving DecidableEq

/-- FamilyAction (FamilyContext). -/
structure FamilyAction where
  memberId : String
  memberName : String
  actionType : ActionType
  description : String
  deadline : Option String := none
  priority : Priority
deriving DecidableEq

/-- The argument of addMember: a FamilyMember without its id field. -/
structure FamilyMemberData where
  name : String
  relationship : String
  dateOfBirth : Option String := none
  policies : List PolicyAssignment
deriving DecidableEq

/-- The member built by addMember (FamilyContext lines 152-155): the input
data spread together with id = Date.now().toString() at the current clock
reading now. -/
def newFamilyMember (memberData : FamilyMemberData) (now : Nat) : FamilyMember :=
  { id := toString now, name := memberData.name,
    relationship := memberData.relationship,
    dateOfBirth := memberData.dateOfBirth, policies := memberData.policies }

/-- addMember (FamilyContext lines 151-157): append the newly stamped
member to the collection. -/
def addMember (memberData : FamilyMemberData) (now : Nat)
    (st : List FamilyMember) : List FamilyMember :=
  st ++ [newFamilyMember memberData now]

/-- exportFamilyData (FamilyContext lines 206-213). -/
def exportFamilyData (st : List FamilyMember) (nowIso : String) : ExportDoc FamilyMember :=
  { collection := some (.arr st), exportDate := some nowIso, version := some "1.0" }

/-- importFamilyData (FamilyContext lines 215-224): same structure as
importSavingsData over the familyMembers field, including the rethrow of
the format error for unparseable payloads and for the parsed null, whose
property access throws inside the try. -/
def importFamilyData (payload : ImportPayload FamilyMember)
    (st : List FamilyMember) : Except String (List FamilyMember) :=
  match payload with
  | .unparseable => .error "Invalid family data format"
  | .nullDoc => .error "Invalid family data format"
  | .doc d =>
    match d.collection with
    | some (.arr elems) => .ok elems
    | _ => .ok st

/-- clearAllFamilyData (FamilyContext lines 226-228). -/
def clearAllFamilyData (st : List FamilyMember) : List FamilyMember :=
  let _ := st
  []

/-- The priorityOrder table of the sort comparator in getPendingActions
(FamilyContext line 264). -/
def priorityOrder : Priority → Nat
  | .high => 3
  | .medium => 2
  | .low => 1

/-- An apostrophe character, used inside the bill-review description. -/
def apos : String :=
  String.singleton (Char.ofNat 39)

/-- Number.prototype.toFixed(0) on the nonnegative percentages involved:
round half up to an integer and print it. -/
def jsToFixed0 (q : ℚ) : String :=
  toString (Int.floor (q + 1 / 2))

/-- The deductible progress computed by getPendingActions (FamilyContext
line 250): deductibleMet / (annual_deductible_individual || 1) * 100, the
falsy coalescing replacing an absent or zero deductible with 1. -/
def deductiblePercent (policy : PolicyAssignment) : ℚ :=
  (policy.deductibleMet /
    (match policy.policyData.annual_deductible_individual with
     | some d => if d = 0 then 1 else d
     | none => 1)) * 100

/-- The renewal action pushed by getPendingActions (FamilyContext lines
239-246) when the mock renewal-window check on the current date passes. -/
def renewalAction (renewalDeadline : String) (m : FamilyMember) : FamilyAction :=
  { memberId := m.id, memberName := m.name, actionType := .renewal,
    description := "Policy renewal for " ++ m.name,
    deadline := some renewalDeadline, priority := .high }

/-- The bill-review action pushed by getPendingActions (FamilyContext lines
252-258) when the deductible progress lies in [80, 100). -/
def billReviewAction (m : FamilyMember) (policy : PolicyAssignment) : FamilyAction :=
  { memberId := m.id, memberName := m.name, actionType := .billReview,
    description := m.name ++ apos ++ "s deductible is "
      ++ jsToFixed0 (deductiblePercent policy)
      ++ "% met - consider scheduling procedures",
    priority := .medium }

/-- The actions pushed for one policy of one member by the body of the
nested forEach in getPendingActions (FamilyContext lines 233-261), in push
order: the renewal check first, then the deductible-progress check. The
renewal check compares only values derived from the current date, so its
outcome is the same for every member and policy within one call; it enters
the model as the boolean renewalDue together with the deadline string the
pushed action would carry. -/
def policyActions (renewalDue : Bool) (renewalDeadline : String)
    (m : FamilyMember) (policy : PolicyAssignment) : List FamilyAction :=
  (if renewalDue then [renewalAction renewalDeadline m] else [])
    ++ (if 80 ≤ deductiblePercent policy ∧ deductiblePercent policy < 100
        then [billReviewAction m policy] else [])

/-- The ordering induced by the sort comparator of getPendingActions
(FamilyContext lines 263-266): (a, b) => priorityOrder of b minus
priorityOrder of a, so a may precede b exactly when the comparator is
nonpositive, that is when priorityOrder of b is at most priorityOrder of a
(high before medium before low). -/
def actionLE (a b : FamilyAction) : Prop :=
  priorityOrder b.priority ≤ priorityOrder a.priority

instance : DecidableRel actionLE :=
  fun a b => inferInstanceAs (Decidable (priorityOrder b.priority ≤ priorityOrder a.priority))

instance : IsTotal FamilyAction actionLE :=
  ⟨fun a b => Nat.le_total (priorityOrder b.priority) (priorityOrder a.priority)⟩

instance : IsTrans FamilyAction actionLE :=
  ⟨fun _ _ _ hab hbc => Nat.le_trans hbc hab⟩

/-- getPendingActions (FamilyContext lines 230-267): collect the actions of
every policy of every member in traversal order, then sort them by
descending priority with the stable comparator sort. -/
def getPendingActions (renewalDue : Bool) (renewalDeadline : String)
    (members : List FamilyMember) : List FamilyAction :=
  List.insertionSort actionLE
    (members.flatMap (fun m =>
      m.policies.flatMap (fun policy =>
        policyActions renewalDue renewalDeadline m policy)))

/-! ## Concrete sample data for counterexamples and witnesses -/

/-- A savings event as a user would log it. -/
def sampleEvent : SavingsEvent :=
  { id := "1", date := 1700000000000, category := "billing_error",
    description := "Found duplicate charge", amountSaved := 150 }

/-- A savings event whose stored id happens to equal the string of the
clock reading 5. -/
def collidingEvent : SavingsEvent :=
  { id := "5", date := 0, category := "appeal_won",
    description := "Appeal accepted", amountSaved := 200 }

/-- Input data for addSavingsEvent. -/
def sampleEventData : SavingsEventData :=
  { category := "rx_savings", description := "Generic substitution", amountSaved := 30 }

/-- A family member without policies. -/
def sampleMember : FamilyMember :=
  { id := "1", name := "Alex", relationship := "self", policies := [] }

/-- Input data for addMember. -/
def sampleMemberData : FamilyMemberData :=
  { name := "Kim", relationship := "child", policies := [] }

/-- A policy assignment with 450 of a 500 individual deductible met. -/
def policy450 : PolicyAssignment :=
  { policyId := "p1", policyData := { annual_deductible_individual := some 500 },
    memberType := "primary", deductibleMet := 450, outOfPocketMet := 0 }

/-- A policy assignment with the full 500 deductible met. -/
def policy500 : PolicyAssignment :=
  { policyId := "p2", policyData := { annual_deductible_individual := some 500 },
    memberType := "primary", deductibleMet := 500, outOfPocketMet := 0 }

/-- The member holding policy450. -/
def member450 : FamilyMember :=
  { id := "m1", name := "Ana", relationship := "self", policies := [policy450] }

/-- The member holding policy500. -/
def member500 : FamilyMember :=
  { id := "m2", name := "Bo", relationship := "spouse", policies := [policy500] }

/-! ## Helper lemmas -/

theorem totalSavings_foldl (l : List SavingsEvent) (init : ℚ) :
    l.foldl (fun sum event => sum + event.amountSaved) init
      = init + (l.map (fun e => e.amountSaved)).sum := by
  induction l generalizing init with
  | nil => simp
  | cons e t ih => simp [List.foldl, ih, add_assoc]

theorem totalSavings_perm {l1 l2 : List SavingsEvent} (h : l1.Perm l2) :
    totalSavings l1 = totalSavings l2 := by
  unfold totalSavings
  rw [totalSavings_foldl, totalSavings_foldl, (h.map _).sum_eq]

theorem savingsByCategory_foldl (l : List SavingsEvent) (acc : String → ℚ) (c : String) :
    (l.foldl
      (fun acc event => fun x =>
        if x = event.category then acc x + event.amountSaved else acc x) acc) c
      = acc c + ((l.filter (fun e => decide (c = e.category))).map
          (fun e => e.amountSaved)).sum := by
  induction l generalizing acc with
  | nil => simp
  | cons e t ih =>
    simp only [List.foldl, List.filter]
    rw [ih]
    by_cases hc : c = e.category
    · simp [hc, add_assoc]
    · simp [hc]

theorem savingsByCategory_eq (l : List SavingsEvent) (c : String) :
    savingsByCategory l c
      = ((l.filter (fun e => decide (c = e.category))).map (fun e => e.amountSaved)).sum := by
  unfold savingsByCategory
  rw [savingsByCategory_foldl]
  simp

theorem savingsByCategory_perm {l1 l2 : List SavingsEvent} (h : l1.Perm l2) (c : String) :
    savingsByCategory l1 c = savingsByCategory l2 c := by
  rw [savingsByCategory_eq, savingsByCategory_eq, ((h.filter _).map _).sum_eq]

/-! ## Claim theorems -/

/-- C1: the claim states that a request all of whose attempts fail with a
network error (APIError status 0) or a server error (status at least 500)
makes retries + 1 attempts with exponential backoff. The code violates this
for network errors: the non-retry guard (status below 500) also captures
status 0, although its own comment labels it a client-error (4xx) check and
the status-0 branch is labelled a network error. Evaluating the code on an
oracle that always fails with a network error, under default options
(retries 3), shows exactly one attempt, no backoff wait, and immediate
propagation of the status-0 error instead of the claimed 4 attempts. -/
theorem C1_network_error_not_retried :
    (request "/api/analyze" {} (fun _ => (FetchOutcome.networkError : FetchOutcome Unit))).attempts = 1
    ∧ (request "/api/analyze" {} (fun _ => (FetchOutcome.networkError : FetchOutcome Unit))).result
        = .error { status := 0, message := "Network error - please check your connection" }
    ∧ (request "/api/analyze" {} (fun _ => (FetchOutcome.networkError : FetchOutcome Unit))).delays = [] :=
  ⟨rfl, rfl, rfl⟩

/-- C2: for every request whose first attempt fails with an APIError whose
status is in the 4xx range, request makes exactly one attempt, performs no
backoff wait, and propagates that error immediately, whatever the retry
configuration. -/
theorem C2_client_error_single_attempt {α : Type} (url : String) (opts : RequestOptions)
    (o : Nat → FetchOutcome α) (e : APIError)
    (h0 : normalizeOutcome (o 0) = .error e)
    (h400 : 400 ≤ e.status) (h500 : e.status < 500) :
    request url opts o = { result := .error e, attempts := 1, delays := [] } := by
  have hnr : nonRetryable e = true := by
    simp [nonRetryable, h500]
  simp [request, requestLoop, h0, hnr]

/-- Witness for C2: a 404 response under default options settles after a
single attempt with the 404 error and no waits. -/
theorem C2_client_error_single_attempt_witness :
    request "/api/policy" {}
        (fun _ => (FetchOutcome.httpError 404 "HTTP 404: Not Found" none none : FetchOutcome Unit))
      = { result := .error { status := 404, message := "HTTP 404: Not Found" },
          attempts := 1, delays := [] } :=
  C2_client_error_single_attempt "/api/policy" {}
    (fun _ => (FetchOutcome.httpError 404 "HTTP 404: Not Found" none none : FetchOutcome Unit))
    { status := 404, message := "HTTP 404: Not Found" } rfl (by decide) (by decide)

/-- C3 counterexample: a payload that parses as JSON (for instance the text
of an empty object) but has no savingsEvents / familyMembers array field is
imported without any error: both imports return normally with the
collection unchanged, refuting the half of the claim that says a
distinguishable error is raised to the caller. -/
theorem C3_counterexample :
    importSavingsData (.doc ({} : ExportDoc SavingsEvent)) [sampleEvent] = .ok [sampleEvent]
    ∧ importFamilyData (.doc ({} : ExportDoc FamilyMember)) [sampleMember] = .ok [sampleMember] :=
  ⟨rfl, rfl⟩

/-- C3 (amended): for both stores, importing a payload that parses as JSON
but whose collection field is missing or not an array always leaves the
in-memory collection exactly unchanged, but whether an error is raised
depends on the parsed value, not on the field: a parsed document (an
object without an array-valued collection field, or a non-null primitive)
is silently ignored with no error, while the parsed value null raises the
same distinguishable format error as a payload that fails to parse,
because property access on null throws inside the try block. -/
theorem C3_import_missing_field (d : ExportDoc SavingsEvent) (dF : ExportDoc FamilyMember)
    (st : List SavingsEvent) (stF : List FamilyMember)
    (h : ∀ elems, d.collection ≠ some (.arr elems))
    (hF : ∀ elems, dF.collection ≠ some (.arr elems)) :
    importSavingsData (.doc d) st = .ok st
    ∧ importFamilyData (.doc dF) stF = .ok stF
    ∧ importSavingsData .nullDoc st = .error "Invalid savings data format"
    ∧ importFamilyData .nullDoc stF = .error "Invalid family data format"
    ∧ importSavingsData .unparseable st = .error "Invalid savings data format"
    ∧ importFamilyData .unparseable stF = .error "Invalid family data format" := by
  refine ⟨?_, ?_, rfl, rfl, rfl, rfl⟩
  · unfold importSavingsData
    rcases hc : d.collection with _ | cf
    · simp [hc]
    · cases cf with
      | arr elems => exact absurd hc (h elems)
      | notArray => simp [hc]
  · unfold importFamilyData
    rcases hc : dF.collection with _ | cf
    · simp [hc]
    · cases cf with
      | arr elems => exact absurd hc (hF elems)
      | notArray => simp [hc]

/-- Witness for C3 (amended): a document with a non-array collection field
and one with an absent collection field are both silently ignored, while
the parsed null and an unparseable payload raise the format errors. -/
theorem C3_import_missing_field_witness :
    importSavingsData (.doc { collection := some CollectionField.notArray }) [sampleEvent]
        = .ok [sampleEvent]
    ∧ importFamilyData (.doc ({} : ExportDoc FamilyMember)) [sampleMember] = .ok [sampleMember]
    ∧ importSavingsData .nullDoc [sampleEvent] = .error "Invalid savings data format"
    ∧ importFamilyData .nullDoc [sampleMember] = .error "Invalid family data format"
    ∧ importSavingsData .unparseable [sampleEvent] = .error "Invalid savings data format"
    ∧ importFamilyData .unparseable [sampleMember] = .error "Invalid family data format" :=
  C3_import_missing_field { collection := some CollectionField.notArray } {}
    [sampleEvent] [sampleMember]
    (by intro elems; simp) (by intro elems; simp)

/-- C4: for every collection state of either store, exporting, then
clearing, then importing the exported document restores the in-memory
collection that existed before the clear, exactly. -/
theorem C4_export_clear_import_roundtrip (st : List SavingsEvent) (stF : List FamilyMember)
    (d1 d2 : String) :
    importSavingsData (.doc (exportSavingsData st d1)) (clearAllSavings st) = .ok st
    ∧ importFamilyData (.doc (exportFamilyData stF d2)) (clearAllFamilyData stF) = .ok stF :=
  ⟨rfl, rfl⟩

/-- C6 counterexample: adding an event at clock reading 5 to a collection
that already holds an entity with id "5" produces a new entity whose id
equals a pre-existing id, refuting the unconditional uniqueness half of the
claim (the length still grows by 1). -/
theorem C6_counterexample :
    ((addSavingsEvent sampleEventData 5 [collidingEvent]).map SavingsEvent.id) = ["5", "5"]
    ∧ (newSavingsEvent sampleEventData 5).id = collidingEvent.id
    ∧ (addSavingsEvent sampleEventData 5 [collidingEvent]).length = 2 := by
  refine ⟨?_, ?_, rfl⟩ <;> decide

/-- C6 (amended): every add call on either store grows the collection
length by exactly 1, and the generated id differs from every pre-existing
id provided the string of the current clock reading is not already among
the stored ids (as when every earlier entity was stamped at a strictly
earlier millisecond). -/
theorem C6_add_length_and_id (d : SavingsEventData) (md : FamilyMemberData)
    (now nowF : Nat) (st : List SavingsEvent) (stF : List FamilyMember)
    (h : toString now ∉ st.map SavingsEvent.id)
    (hF : toString nowF ∉ stF.map FamilyMember.id) :
    (addSavingsEvent d now st).length = st.length + 1
    ∧ (∀ e ∈ st, (newSavingsEvent d now).id ≠ e.id)
    ∧ (addMember md nowF stF).length = stF.length + 1
    ∧ (∀ m ∈ stF, (newFamilyMember md nowF).id ≠ m.id) := by
  refine ⟨by simp [addSavingsEvent], ?_, by simp [addMember], ?_⟩
  · intro e he heq
    apply h
    rw [show toString now = e.id from heq]
    exact List.mem_map_of_mem SavingsEvent.id he
  · intro m hm heq
    apply hF
    rw [show toString nowF = m.id from heq]
    exact List.mem_map_of_mem FamilyMember.id hm

/-- Witness for C6 (amended): adding at clock reading 7 over collections
whose stored ids are "5" and "1" gives fresh ids and length 2. -/
theorem C6_add_length_and_id_witness :
    (addSavingsEvent sampleEventData 7 [collidingEvent]).length = 2
    ∧ (newSavingsEvent sampleEventData 7).id ≠ collidingEvent.id
    ∧ (addMember sampleMemberData 7 [sampleMember]).length = 2
    ∧ (newFamilyMember sampleMemberData 7).id ≠ sampleMember.id := by
  have h := C6_add_length_and_id sampleEventData sampleMemberData 7 7
    [collidingEvent] [sampleMember] (by decide) (by decide)
  exact ⟨h.1, h.2.1 collidingEvent (by simp), h.2.2.1, h.2.2.2 sampleMember (by simp)⟩

/-- C7: for every family member and policy assignment, getPendingActions
emits the bill-review action with priority medium for that policy whenever
its deductible progress lies in [80, 100) percent; every bill-review action
in the output has priority medium and arises from some member and policy
with progress in [80, 100); and the returned list is sorted by the fixed
priority ordering, high before medium before low. -/
theorem C7_pending_actions (renewalDue : Bool) (dl : String) (members : List FamilyMember) :
    (∀ m ∈ members, ∀ policy ∈ m.policies,
        80 ≤ deductiblePercent policy ∧ deductiblePercent policy < 100 →
        billReviewAction m policy ∈ getPendingActions renewalDue dl members)
    ∧ (∀ a ∈ getPendingActions renewalDue dl members, a.actionType = ActionType.billReview →
        a.priority = Priority.medium
        ∧ ∃ m ∈ members, ∃ policy ∈ m.policies,
            (80 ≤ deductiblePercent policy ∧ deductiblePercent policy < 100)
            ∧ a = billReviewAction m policy)
    ∧ List.Pairwise actionLE (getPendingActions renewalDue dl members) := by
  have hperm :
      (getPendingActions renewalDue dl members).Perm
        (members.flatMap (fun m =>
          m.policies.flatMap (fun policy =>
            policyActions renewalDue dl m policy))) :=
    List.perm_insertionSort actionLE _
  refine ⟨?_, ?_, List.sorted_insertionSort actionLE _⟩
  · intro m hm policy hp hcond
    apply hperm.mem_iff.mpr
    apply List.mem_flatMap.mpr
    refine ⟨m, hm, List.mem_flatMap.mpr ⟨policy, hp, ?_⟩⟩
    unfold policyActions
    apply List.mem_append.mpr
    right
    rw [if_pos hcond]
    exact List.mem_singleton_self _
  · intro a ha hat
    have ha' := hperm.mem_iff.mp ha
    rcases List.mem_flatMap.mp ha' with ⟨m, hm, ha2⟩
    rcases List.mem_flatMap.mp ha2 with ⟨policy, hp, ha3⟩
    unfold policyActions at ha3
    rcases List.mem_append.mp ha3 with h1 | h2
    · by_cases hr : renewalDue
      · rw [if_pos hr] at h1
        rw [List.mem_singleton.mp h1] at hat
        exact absurd hat (by simp [renewalAction])
      · rw [if_neg hr] at h1
        exact absurd h1 (List.not_mem_nil a)
    · by_cases hc : 80 ≤ deductiblePercent policy ∧ deductiblePercent policy < 100
      · rw [if_pos hc] at h2
        rw [List.mem_singleton.mp h2]
        exact ⟨rfl, m, hm, policy, hp, hc, rfl⟩
      · rw [if_neg hc] at h2
        exact absurd h2 (List.not_mem_nil a)

/-- Witness for C7: with two members, one at 450 of 500 (90 percent) and
one at 500 of 500 (100 percent), the bill-review action for the former is
in the pending actions with priority medium, the latter does not satisfy
the 80 to 99 percent rule, and the output is priority-sorted. -/
theorem C7_pending_actions_witness :
    billReviewAction member450 policy450
        ∈ getPendingActions false "2026-11-01" [member450, member500]
    ∧ (billReviewAction member450 policy450).priority = Priority.medium
    ∧ deductiblePercent policy450 = 90
    ∧ deductiblePercent policy500 = 100
    ∧ ¬ (80 ≤ deductiblePercent policy500 ∧ deductiblePercent policy500 < 100)
    ∧ List.Pairwise actionLE (getPendingActions false "2026-11-01" [member450, member500]) := by
  have h := C7_pending_actions false "2026-11-01" [member450, member500]
  have h90 : deductiblePercent policy450 = 90 := by
    norm_num [deductiblePercent, policy450]
  have h100 : deductiblePercent policy500 = 100 := by
    norm_num [deductiblePercent, policy500]
  refine ⟨?_, rfl, h90, h100, ?_, h.2.2⟩
  · exact h.1 member450 (by simp) policy450 (by simp [member450])
      (by rw [h90]; norm_num)
  · rw [h100]
    norm_num

/-- C8: healthCheck performs one GET of /health with timeout 5000 ms and
retries 1, and collapses the outcome of that single request call to a
boolean: true exactly when the request succeeds, false exactly when it
fails for any reason (timeouts included); in particular an environment in
which every attempt times out yields false. It is a total boolean-valued
function, so it never throws or rejects. -/
theorem C8_healthCheck_boolean {α : Type} (o : Nat → FetchOutcome α) :
    (healthCheck o = true ↔ ∃ v, (request "/health" healthCheckOptions o).result = .ok v)
    ∧ (healthCheck o = false ↔ ∃ e, (request "/health" healthCheckOptions o).result = .error e)
    ∧ healthCheckOptions.timeout = some 5000
    ∧ healthCheckOptions.retries = some 1
    ∧ healthCheckOptions.method = some "GET"
    ∧ ((∀ k, o k = .aborted) → healthCheck o = false) := by
  refine ⟨?_, ?_, rfl, rfl, rfl, ?_⟩
  · unfold healthCheck
    cases h : (request "/health" healthCheckOptions o).result <;> simp [h]
  · unfold healthCheck
    cases h : (request "/health" healthCheckOptions o).result <;> simp [h]
  · intro habort
    have h0 : o 0 = .aborted := habort 0
    simp [healthCheck, request, requestLoop, healthCheckOptions,
      effectiveRetries, effectiveRetryDelay, h0, normalizeOutcome, nonRetryable]

/-- Witness for C8: against an endpoint whose every attempt times out,
healthCheck resolves to false. -/
theorem C8_healthCheck_boolean_witness :
    healthCheck (fun _ => (FetchOutcome.aborted : FetchOutcome Unit)) = false :=
  (C8_healthCheck_boolean (fun _ => (FetchOutcome.aborted : FetchOutcome Unit))).2.2.2.2.2
    (fun _ => rfl)

/-- C9: at the request interface, an explicit timeout of 0 is falsy under
the coalescing on robust-api.ts line 40 and silently falls back to the
30000 ms default (exactly as an absent timeout does), whereas an explicit
retries of 0 and retryDelay of 0 survive the nullish coalescing on lines
103-104: with retries 0 every request makes exactly one attempt, whatever
its outcome. -/
theorem C9_zero_option_handling :
    effectiveTimeout { timeout := some 0 } = 30000
    ∧ effectiveTimeout {} = 30000
    ∧ effectiveRetries { retries := some 0 } = 0
    ∧ effectiveRetryDelay { retryDelay := some 0 } = 0
    ∧ ∀ (o : Nat → FetchOutcome Unit) (url : String),
        (request url { retries := some 0 } o).attempts = 1 := by
  refine ⟨rfl, rfl, rfl, rfl, ?_⟩
  intro o url
  rcases h : normalizeOutcome (o 0) with e | v
  · by_cases he : nonRetryable e <;>
      simp [request, requestLoop, effectiveRetries, h, he]
  · simp [request, requestLoop, effectiveRetries, h]

/-- C10: getSavingsStats sorts the stored collection in place: the state
after the call is a permutation of the prior collection, ordered by date
descending (newest first); the returned savingsHistory is that same sorted
collection; the returned totalSaved is the total of the prior collection;
and the recomputed totals and per-category sums after the call equal those
before it. -/
theorem C10_getSavingsStats_sorts_in_place (evs : List SavingsEvent) :
    ((getSavingsStats evs).2).Perm evs
    ∧ List.Pairwise dateDescLE (getSavingsStats evs).2
    ∧ (getSavingsStats evs).1.savingsHistory = (getSavingsStats evs).2
    ∧ (getSavingsStats evs).1.totalSaved = totalSavings evs
    ∧ totalSavings (getSavingsStats evs).2 = totalSavings evs
    ∧ (∀ c, savingsByCategory (getSavingsStats evs).2 c = savingsByCategory evs c) := by
  have hperm : ((getSavingsStats evs).2).Perm evs :=
    List.perm_insertionSort dateDescLE evs
  exact ⟨hperm, List.sorted_insertionSort dateDescLE evs, rfl, rfl,
    totalSavings_perm hperm, fun c => savingsByCategory_perm hperm c⟩
